import Mathlib

/-!
# Verification of `SystemFactory` (Ready, `src/readybase/SystemFactory.cpp`)

A shallow embedding of `SystemFactory::CreateFromFile` and its two helper
constructors `CreateFromImageDataFile` and `CreateFromUnstructuredGridFile`.

The embedding models:
* the input file as the data the VTK readers extract from it
  (declared output type, image / unstructured-grid payload, the RD descriptor
  with its `type` and `name` tags, the optional nested `render_settings`
  element, and the initial-pattern-generation request);
* the process-global numeric locale and the caller's render-settings store as
  explicitly threaded state;
* C++ exceptions as an `Except`-style result, with two crucial points about
  the locale handling in `CreateFromFile`: a propagating exception skips the
  trailing `setlocale(LC_NUMERIC, old_locale)` call, and `old_locale` itself
  holds the return value of `setlocale(LC_NUMERIC, "C")`, which per
  C11 7.11.1.1 is the string for the NEW locale — `"C"` — not the pre-call
  locale;
* the observable calls made on the constructed model as an event trace, so
  that ordering properties (sizing before initial-pattern generation) and
  dispatch properties (which sub-constructor ran) can be stated.

`Properties::OverwriteFromXML` and `OpenCL_utils::GetOpenCLInstallationHints`
are not among the sources; they are modelled from the spec and marked as such.
-/

namespace Ready

/-- VTK data-object type code for `vtkImageData` (`VTK_IMAGE_DATA` in
`vtkType.h`), as returned by `vtkXMLGenericDataObjectReader::ReadOutputType`. -/
def VTK_IMAGE_DATA : Int := 6

/-- VTK data-object type code for `vtkUnstructuredGrid`
(`VTK_UNSTRUCTURED_GRID` in `vtkType.h`). -/
def VTK_UNSTRUCTURED_GRID : Int := 4

/-- One VTK data array; the factory only consults its scalar data type
(`GetDataType()`). -/
structure DataArray where
  dataType : Int
deriving DecidableEq

/-- What the factory reads from a `vtkImageData` payload: the point-data
section (`GetPointData()`, possibly NULL) with its arrays, the dimensions
(`GetDimensions`) and the number of scalar components per element
(`GetNumberOfScalarComponents`). -/
structure ImageContent where
  pointData : Option (List DataArray)
  dimX : Int
  dimY : Int
  dimZ : Int
  numScalarComponents : Int
deriving DecidableEq

/-- What the factory reads from a `vtkUnstructuredGrid` payload: the cell-data
section (`GetCellData()`, possibly NULL) with its arrays. -/
structure GridContent where
  cellData : Option (List DataArray)
deriving DecidableEq

/-- The RD descriptor data extracted by the `RD_XML*Reader`s: the `type` and
`name` tags, the optional nested `render_settings` element (as name/value
pairs) and whether the file asks for procedural initial-pattern generation
(`ShouldGenerateInitialPatternWhenLoading`). -/
structure RDDescriptor where
  type : String
  name : String
  renderSettings : Option (List (String × String))
  generateInitialPatternWhenLoading : Bool
deriving DecidableEq

/-- An input file, as observed through the readers: its path, the declared
output type reported by `ReadOutputType`, and the payloads the two readers
would produce (`none` models a NULL `GetOutput()`). -/
structure InputFile where
  filename : String
  outputType : Int
  image : Option ImageContent
  ugrid : Option GridContent
  rd : RDDescriptor
deriving DecidableEq

/-- Modelled from the spec: `OpenCL_utils::GetOpenCLInstallationHints`
(`OpenCL_utils.cpp` is not among the sources). Per the spec the returned
message "includes installation/setup guidance for the caller to surface". -/
def openCLInstallationHints : String :=
  "OpenCL is not available. Please install the latest drivers for your graphics card, or install an OpenCL software implementation."

/-- The distinct failure exits of the factory, one per `throw runtime_error`
site in `SystemFactory.cpp`. -/
inductive FactoryError where
  | unsupportedDataType
  | failedToReadImage
  | imageHasNoPointData
  | noArraysInImagePointData
  | failedToReadGrid
  | gridHasNoCellData
  | noArraysInGridCellData
  | unsupportedInbuilt (name : String)
  | computeUnavailable
  | unsupportedRuleType (t : String)
deriving DecidableEq

/-- The `what()` message of the `runtime_error` thrown at each failure exit,
verbatim from `SystemFactory.cpp`. -/
def FactoryError.message : FactoryError → String
  | .unsupportedDataType => "Unsupported data type or file read error"
  | .failedToReadImage => "Failed to read image."
  | .imageHasNoPointData => "Image has no point data."
  | .noArraysInImagePointData => "No arrays in image point data."
  | .failedToReadGrid => "Failed to read unstructured grid."
  | .gridHasNoCellData => "Unstructured grid has no cell data."
  | .noArraysInGridCellData => "No arrays in unstructured grid cell data."
  | .unsupportedInbuilt name => "Unsupported inbuilt implementation: " ++ name
  | .computeUnavailable => openCLInstallationHints
  | .unsupportedRuleType t => "Unsupported rule type: " ++ t

/-- The six concrete model variants the factory can instantiate. The OpenCL
variants carry the platform/device binding and the discovered scalar data
type passed to their constructors; the Gray-Scott variants are constructed
with no arguments. -/
inductive RDSystem where
  | grayScottImage
  | formulaOpenCLImage (platform device dataType : Int)
  | fullKernelOpenCLImage (platform device dataType : Int)
  | grayScottMesh
  | formulaOpenCLMesh (platform device dataType : Int)
  | fullKernelOpenCLMesh (platform device dataType : Int)
deriving DecidableEq

/-- Whether the variant needs a compute backend: the OpenCL-backed variants
are constructed with a platform/device binding, the inbuilt Gray-Scott
variants are not. -/
def RDSystem.requiresComputeBackend : RDSystem → Bool
  | .grayScottImage => false
  | .grayScottMesh => false
  | _ => true

/-- The observable calls the factory makes while building a model, in
program order. -/
inductive Event where
  | callImageSub
  | callMeshSub
  | initFromXML
  | overwriteRenderSettings
  | setDimensions (x y z : Int)
  | setNumberOfChemicals (n : Int)
  | copyFromImage
  | copyFromMesh
  | generateInitialPattern
  | setFilename (f : String)
  | setModified (b : Bool)
deriving DecidableEq

/-- The events that perform the model's spatial sizing: dimension setting,
chemical-channel-count setting, and field-data copy-in. -/
def Event.isSpatialSizing : Event → Bool
  | .setDimensions _ _ _ => true
  | .setNumberOfChemicals _ => true
  | .copyFromImage => true
  | .copyFromMesh => true
  | _ => false

/-- The dispatch events, marking which sub-constructor `CreateFromFile`
delegated to. -/
def Event.isDispatch : Event → Bool
  | .callImageSub => true
  | .callMeshSub => true
  | _ => false

/-- The caller's render-settings store (`Properties`): a list of named
values. -/
abbrev Properties := List (String × String)

/-- Value of the named setting in the store, if present. -/
def Properties.valueOf : Properties → String → Option String
  | [], _ => none
  | (m, v) :: ps, n => if m = n then some v else Properties.valueOf ps n

/-- Replace the value of setting `n` by `v` when present, otherwise add it. -/
def Properties.setValue (ps : Properties) (n v : String) : Properties :=
  if ps.any (fun p => p.1 = n) then
    ps.map (fun p => if p.1 = n then (n, v) else p)
  else
    ps ++ [(n, v)]

/-- Modelled from the spec: `Properties::OverwriteFromXML` (`Properties.cpp`
is not among the sources). Per the spec, "Overlay is partial: only names
present in the overlay source are replaced; unmentioned names retain prior
values". Each name/value pair of the overlay element is written into the
store in turn. -/
def Properties.overwriteFromXML (ps : Properties) (overlay : List (String × String)) : Properties :=
  overlay.foldl (fun acc nv => acc.setValue nv.1 nv.2) ps

/-- The constructed model, recording the fields the factory sets on it. A
freshly constructed model starts unsized, with no filename and with the
modified flag set. -/
structure RDModel where
  system : RDSystem
  dimX : Int
  dimY : Int
  dimZ : Int
  numberOfChemicals : Int
  filename : String
  modified : Bool
  initialPatternGenerated : Bool
deriving DecidableEq

/-- A freshly constructed model for variant `s`, before hydration. -/
def mkSystemModel (s : RDSystem) : RDModel :=
  { system := s, dimX := 0, dimY := 0, dimZ := 0, numberOfChemicals := 0
    filename := "", modified := true, initialPatternGenerated := false }

/-- Outcome of a sub-constructor: the returned model or the propagating
exception, the render-settings store after the call, and the trace of calls
made on the model. -/
structure SubResult where
  result : Except FactoryError RDModel
  renderSettings : Properties
  trace : List Event

/-- The rule-variant selection of `CreateFromImageDataFile`
(`SystemFactory.cpp:126-146`): the `type` tag picks the implementation family,
the `name` tag is consulted only for `inbuilt`, and the OpenCL-backed families
demand an available backend before binding platform/device and the discovered
scalar data type. -/
def selectImageSystem (rd : RDDescriptor) (is_opencl_available : Bool)
    (opencl_platform opencl_device data_type : Int) : Except FactoryError RDSystem :=
  if rd.type = "inbuilt" then
    if rd.name = "Gray-Scott" then .ok .grayScottImage
    else .error (.unsupportedInbuilt rd.name)
  else if rd.type = "formula" then
    if !is_opencl_available then .error .computeUnavailable
    else .ok (.formulaOpenCLImage opencl_platform opencl_device data_type)
  else if rd.type = "kernel" then
    if !is_opencl_available then .error .computeUnavailable
    else .ok (.fullKernelOpenCLImage opencl_platform opencl_device data_type)
  else .error (.unsupportedRuleType rd.type)

/-- The rule-variant selection of `CreateFromUnstructuredGridFile`
(`SystemFactory.cpp:195-215`); same shape as the image one, with the
mesh-backed variants. -/
def selectMeshSystem (rd : RDDescriptor) (is_opencl_available : Bool)
    (opencl_platform opencl_device data_type : Int) : Except FactoryError RDSystem :=
  if rd.type = "inbuilt" then
    if rd.name = "Gray-Scott" then .ok .grayScottMesh
    else .error (.unsupportedInbuilt rd.name)
  else if rd.type = "formula" then
    if !is_opencl_available then .error .computeUnavailable
    else .ok (.formulaOpenCLMesh opencl_platform opencl_device data_type)
  else if rd.type = "kernel" then
    if !is_opencl_available then .error .computeUnavailable
    else .ok (.fullKernelOpenCLMesh opencl_platform opencl_device data_type)
  else .error (.unsupportedRuleType rd.type)

/-- Shallow embedding of `CreateFromImageDataFile`
(`SystemFactory.cpp:102-167`): NULL checks on the reader output, rule-variant
selection from the `type`/`name` tags, hydration via `InitializeFromXML`,
optional render-settings overlay, spatial sizing from the image
(dimensions, `nc = GetNumberOfScalarComponents() * GetNumberOfArrays()`,
`CopyFromImage`), and optional initial-pattern generation. -/
def CreateFromImageDataFile (f : InputFile) (is_opencl_available : Bool)
    (opencl_platform opencl_device : Int) (render_settings : Properties) : SubResult :=
  match f.image with
  | none => ⟨.error .failedToReadImage, render_settings, []⟩
  | some image =>
    match image.pointData with
    | none => ⟨.error .imageHasNoPointData, render_settings, []⟩
    | some [] => ⟨.error .noArraysInImagePointData, render_settings, []⟩
    | some (array0 :: rest) =>
      let data_type := array0.dataType
      match selectImageSystem f.rd is_opencl_available opencl_platform opencl_device data_type with
      | .error e => ⟨.error e, render_settings, []⟩
      | .ok sys =>
        let m0 := mkSystemModel sys
        let rs1 :=
          match f.rd.renderSettings with
          | some overlay => render_settings.overwriteFromXML overlay
          | none => render_settings
        let overlayTrace : List Event :=
          match f.rd.renderSettings with
          | some _ => [.overwriteRenderSettings]
          | none => []
        let nc := image.numScalarComponents * ((array0 :: rest).length : Int)
        let m1 := { m0 with
          dimX := image.dimX
          dimY := image.dimY
          dimZ := image.dimZ
          numberOfChemicals := nc }
        let sizedTrace := Event.initFromXML :: overlayTrace ++
          [.setDimensions image.dimX image.dimY image.dimZ,
           .setNumberOfChemicals nc, .copyFromImage]
        if f.rd.generateInitialPatternWhenLoading then
          ⟨.ok { m1 with initialPatternGenerated := true }, rs1,
            sizedTrace ++ [.generateInitialPattern]⟩
        else
          ⟨.ok m1, rs1, sizedTrace⟩

/-- Shallow embedding of `CreateFromUnstructuredGridFile`
(`SystemFactory.cpp:171-230`): NULL checks on the reader output, rule-variant
selection from the `type`/`name` tags, hydration via `InitializeFromXML`,
`CopyFromMesh`, optional render-settings overlay, and optional
initial-pattern generation (note the overlay comes after `CopyFromMesh`
here, unlike the image path). -/
def CreateFromUnstructuredGridFile (f : InputFile) (is_opencl_available : Bool)
    (opencl_platform opencl_device : Int) (render_settings : Properties) : SubResult :=
  match f.ugrid with
  | none => ⟨.error .failedToReadGrid, render_settings, []⟩
  | some ugrid =>
    match ugrid.cellData with
    | none => ⟨.error .gridHasNoCellData, render_settings, []⟩
    | some [] => ⟨.error .noArraysInGridCellData, render_settings, []⟩
    | some (array0 :: _) =>
      let data_type := array0.dataType
      match selectMeshSystem f.rd is_opencl_available opencl_platform opencl_device data_type with
      | .error e => ⟨.error e, render_settings, []⟩
      | .ok sys =>
        let m0 := mkSystemModel sys
        let rs1 :=
          match f.rd.renderSettings with
          | some overlay => render_settings.overwriteFromXML overlay
          | none => render_settings
        let overlayTrace : List Event :=
          match f.rd.renderSettings with
          | some _ => [.overwriteRenderSettings]
          | none => []
        let copiedTrace := Event.initFromXML :: Event.copyFromMesh :: overlayTrace
        if f.rd.generateInitialPatternWhenLoading then
          ⟨.ok { m0 with initialPatternGenerated := true }, rs1,
            copiedTrace ++ [.generateInitialPattern]⟩
        else
          ⟨.ok m0, rs1, copiedTrace⟩

/-- The process-global state threaded through `CreateFromFile`: the numeric
locale (`LC_NUMERIC`), the caller's render-settings store, and the trace of
observable calls. -/
structure ProcState where
  localeNumeric : String
  renderSettings : Properties
  trace : List Event
deriving DecidableEq

/-- Shallow embedding of `setlocale(LC_NUMERIC, loc)` for a valid (non-NULL)
locale string: the process numeric locale is set to `loc`, and — per
C11 7.11.1.1 (likewise POSIX) — the call returns the string associated with
the NEW locale, i.e. `loc` itself, not the prior value. -/
def setlocaleNumeric (loc : String) (st : ProcState) : String × ProcState :=
  (loc, { st with localeNumeric := loc })

/-- Shallow embedding of `SystemFactory::CreateFromFile`
(`SystemFactory.cpp:63-98`). `char *old_locale = setlocale(LC_NUMERIC,"C")`
installs the `"C"` override and — since `setlocale` returns the string for
the NEW locale — binds `old_locale` to `"C"`, not to the pre-call locale.
The file's declared output type selects the sub-constructor. The
`setlocale(LC_NUMERIC, old_locale)` after the `switch` is a plain call, so a
propagating exception (modelled by an `error` result) skips it; on the
success path it runs but merely re-installs `"C"`. On success the filename
is recorded and the modified flag cleared. -/
def CreateFromFile (f : InputFile) (is_opencl_available : Bool)
    (opencl_platform opencl_device : Int) (st : ProcState) :
    Except FactoryError RDModel × ProcState :=
  let setRet := setlocaleNumeric "C" st
  let old_locale := setRet.1
  let stC : ProcState := setRet.2
  if f.outputType = VTK_IMAGE_DATA then
    let r := CreateFromImageDataFile f is_opencl_available opencl_platform opencl_device
      stC.renderSettings
    let stAfter : ProcState := { stC with
      renderSettings := r.renderSettings
      trace := stC.trace ++ Event.callImageSub :: r.trace }
    match r.result with
    | .error e => (.error e, stAfter)
    | .ok m =>
      let stRestored := (setlocaleNumeric old_locale stAfter).2
      (.ok { m with filename := f.filename, modified := false },
        { stRestored with
          trace := stRestored.trace ++ [.setFilename f.filename, .setModified false] })
  else if f.outputType = VTK_UNSTRUCTURED_GRID then
    let r := CreateFromUnstructuredGridFile f is_opencl_available opencl_platform opencl_device
      stC.renderSettings
    let stAfter : ProcState := { stC with
      renderSettings := r.renderSettings
      trace := stC.trace ++ Event.callMeshSub :: r.trace }
    match r.result with
    | .error e => (.error e, stAfter)
    | .ok m =>
      let stRestored := (setlocaleNumeric old_locale stAfter).2
      (.ok { m with filename := f.filename, modified := false },
        { stRestored with
          trace := stRestored.trace ++ [.setFilename f.filename, .setModified false] })
  else
    (.error .unsupportedDataType, stC)

/-- Whether the reader-output checks of the relevant sub-constructor pass:
the payload is present and its point-data (image) / cell-data (mesh) section
exists and contains at least one array. -/
def contentChecksPass (f : InputFile) : Bool :=
  if f.outputType = VTK_IMAGE_DATA then
    match f.image with
    | some c => match c.pointData with
      | some (_ :: _) => true
      | _ => false
    | none => false
  else if f.outputType = VTK_UNSTRUCTURED_GRID then
    match f.ugrid with
    | some g => match g.cellData with
      | some (_ :: _) => true
      | _ => false
    | none => false
  else false

/-- The point-data section of the image payload, when the payload was read:
`some none` is a present image with a NULL point-data section, `some (some l)`
a present image with arrays `l`. -/
def imagePointData (f : InputFile) : Option (Option (List DataArray)) :=
  f.image.map (fun c => c.pointData)

/-- The cell-data section of the unstructured-grid payload, when the payload
was read. -/
def gridCellData (f : InputFile) : Option (Option (List DataArray)) :=
  f.ugrid.map (fun g => g.cellData)

deriving instance DecidableEq for Except

/-- Whether a factory outcome is a returned model (as opposed to a
propagating exception). -/
def resultOk : Except FactoryError RDModel → Bool
  | .ok _ => true
  | .error _ => false

/-- The error kinds the claim C10 enumerates: unreadable file, missing data,
unsupported rule type, unknown inbuilt name, compute unavailable. -/
def FactoryError.isPreOverlayCheck : FactoryError → Bool
  | .failedToReadImage => true
  | .imageHasNoPointData => true
  | .noArraysInImagePointData => true
  | .failedToReadGrid => true
  | .gridHasNoCellData => true
  | .noArraysInGridCellData => true
  | .unsupportedInbuilt _ => true
  | .computeUnavailable => true
  | .unsupportedRuleType _ => true
  | .unsupportedDataType => false


/-! ## Lemmas about the render-settings store -/

/-- Writing setting `m` leaves the value of any other name unchanged
(replacement case). -/
lemma Properties.valueOf_map_set (ps : Properties) (m v n : String) (hmn : m ≠ n) :
    Properties.valueOf (ps.map (fun p => if p.1 = m then (m, v) else p)) n
      = ps.valueOf n := by
  induction ps with
  | nil => rfl
  | cons a ps ih =>
    obtain ⟨a1, a2⟩ := a
    dsimp only [List.map_cons]
    by_cases h : a1 = m
    · subst h
      rw [if_pos rfl]
      simp only [Properties.valueOf]
      rw [if_neg hmn, if_neg hmn]
      exact ih
    · rw [if_neg h]
      simp only [Properties.valueOf]
      by_cases h2 : a1 = n
      · rw [if_pos h2, if_pos h2]
      · rw [if_neg h2, if_neg h2]
        exact ih

/-- Appending a binding for `m` leaves the value of any other name unchanged
(addition case). -/
lemma Properties.valueOf_append_single (ps : Properties) (m v n : String) (hmn : m ≠ n) :
    Properties.valueOf (ps ++ [(m, v)]) n = ps.valueOf n := by
  induction ps with
  | nil => simp [Properties.valueOf, hmn]
  | cons a ps ih =>
    obtain ⟨a1, a2⟩ := a
    by_cases h : a1 = n <;> simp [Properties.valueOf, h, ih]

/-- `setValue` changes no name other than the one written. -/
lemma Properties.valueOf_setValue_of_ne (ps : Properties) (m v n : String) (hmn : m ≠ n) :
    (ps.setValue m v).valueOf n = ps.valueOf n := by
  unfold Properties.setValue
  split
  · exact Properties.valueOf_map_set ps m v n hmn
  · exact Properties.valueOf_append_single ps m v n hmn

/-- The overlay is partial: a name not mentioned by the overlay keeps its
prior value. -/
lemma Properties.valueOf_overwriteFromXML_of_not_mem (overlay : List (String × String))
    (ps : Properties) (n : String) (h : n ∉ overlay.map Prod.fst) :
    (ps.overwriteFromXML overlay).valueOf n = ps.valueOf n := by
  induction overlay generalizing ps with
  | nil => rfl
  | cons nv rest ih =>
    simp only [List.map, List.mem_cons, not_or] at h
    have step : Properties.overwriteFromXML ps (nv :: rest)
        = Properties.overwriteFromXML (ps.setValue nv.1 nv.2) rest := rfl
    rw [step, ih (ps.setValue nv.1 nv.2) (by simpa using h.2)]
    exact Properties.valueOf_setValue_of_ne ps nv.1 nv.2 n (fun hc => h.1 hc.symm)

/-! ## Lemmas about `CreateFromImageDataFile` -/

/-- The image sub-constructor's trace contains no dispatch event. -/
lemma imageSub_trace_no_dispatch (f : InputFile) (b : Bool) (p d : Int) (rs : Properties) :
    ((CreateFromImageDataFile f b p d rs).trace.all fun e => !e.isDispatch) = true := by
  obtain ⟨fn, ot, img, ug, rd⟩ := f
  obtain ⟨ty, nm, ov, gen⟩ := rd
  cases img with
  | none => rfl
  | some image =>
    obtain ⟨pd, dx, dy, dz, nsc⟩ := image
    cases pd with
    | none => rfl
    | some arrs =>
      cases arrs with
      | nil => rfl
      | cons a0 rest =>
        unfold CreateFromImageDataFile
        dsimp only
        cases hsel : selectImageSystem ⟨ty, nm, ov, gen⟩ b p d a0.dataType with
        | error e2 => rfl
        | ok sys => cases ov <;> cases gen <;> rfl

/-- Every failure exit of the image sub-constructor happens before the
render-settings overlay: on an error the store comes back untouched. -/
lemma imageSub_error_renderSettings (f : InputFile) (b : Bool) (p d : Int)
    (rs : Properties) (e : FactoryError)
    (h : (CreateFromImageDataFile f b p d rs).result = .error e) :
    (CreateFromImageDataFile f b p d rs).renderSettings = rs := by
  obtain ⟨fn, ot, img, ug, rd⟩ := f
  obtain ⟨ty, nm, ov, gen⟩ := rd
  cases img with
  | none => rfl
  | some image =>
    obtain ⟨pd, dx, dy, dz, nsc⟩ := image
    cases pd with
    | none => rfl
    | some arrs =>
      cases arrs with
      | nil => rfl
      | cons a0 rest =>
        unfold CreateFromImageDataFile at h ⊢
        dsimp only at h ⊢
        cases hsel : selectImageSystem ⟨ty, nm, ov, gen⟩ b p d a0.dataType with
        | error e2 => rfl
        | ok sys =>
          rw [hsel] at h
          cases ov <;> cases gen <;> simp at h

/-- When the reader checks pass and rule selection fails, the image
sub-constructor propagates exactly the selection error. -/
lemma imageSub_sel_error (f : InputFile) (b : Bool) (p d : Int) (rs : Properties)
    (c : ImageContent) (a0 : DataArray) (rest : List DataArray) (e : FactoryError)
    (himg : f.image = some c) (hpd : c.pointData = some (a0 :: rest))
    (hsel : selectImageSystem f.rd b p d a0.dataType = .error e) :
    (CreateFromImageDataFile f b p d rs).result = .error e := by
  obtain ⟨fn, ot, img, ug, rd⟩ := f
  subst himg
  obtain ⟨pd, dx, dy, dz, nsc⟩ := c
  dsimp only at hpd hsel
  subst hpd
  unfold CreateFromImageDataFile
  dsimp only
  rw [hsel]

/-- When the reader checks pass and rule selection succeeds, the image
sub-constructor returns a model of the selected variant. -/
lemma imageSub_sel_ok (f : InputFile) (b : Bool) (p d : Int) (rs : Properties)
    (c : ImageContent) (a0 : DataArray) (rest : List DataArray) (sys : RDSystem)
    (himg : f.image = some c) (hpd : c.pointData = some (a0 :: rest))
    (hsel : selectImageSystem f.rd b p d a0.dataType = .ok sys) :
    ∃ m, (CreateFromImageDataFile f b p d rs).result = .ok m ∧ m.system = sys := by
  obtain ⟨fn, ot, img, ug, rd⟩ := f
  subst himg
  obtain ⟨pd, dx, dy, dz, nsc⟩ := c
  dsimp only at hpd hsel
  subst hpd
  unfold CreateFromImageDataFile
  dsimp only
  rw [hsel]
  obtain ⟨ty, nm, ov, gen⟩ := rd
  cases gen <;> exact ⟨_, rfl, rfl⟩

/-- A model returned by the image sub-constructor is sized from the image:
its dimensions are the image dimensions and its chemical count is
scalar-components-per-element times the number of point-data arrays. -/
lemma imageSub_ok_model (f : InputFile) (b : Bool) (p d : Int) (rs : Properties)
    (c : ImageContent) (m : RDModel) (himg : f.image = some c)
    (h : (CreateFromImageDataFile f b p d rs).result = .ok m) :
    ∃ arrs, c.pointData = some arrs ∧
      m.dimX = c.dimX ∧ m.dimY = c.dimY ∧ m.dimZ = c.dimZ ∧
      m.numberOfChemicals = c.numScalarComponents * arrs.length := by
  obtain ⟨fn, ot, img, ug, rd⟩ := f
  subst himg
  obtain ⟨pd, dx, dy, dz, nsc⟩ := c
  cases pd with
  | none => simp [CreateFromImageDataFile] at h
  | some arrs =>
    cases arrs with
    | nil => simp [CreateFromImageDataFile] at h
    | cons a0 rest =>
      unfold CreateFromImageDataFile at h
      dsimp only at h
      refine ⟨a0 :: rest, rfl, ?_⟩
      cases hsel : selectImageSystem rd b p d a0.dataType with
      | error e2 => rw [hsel] at h; simp at h
      | ok sys =>
        rw [hsel] at h
        obtain ⟨ty, nm, ov, gen⟩ := rd
        cases gen <;> simp_all <;> subst h <;> simp

/-- A successful image construction's trace ends with the optional
initial-pattern generation, after a prefix containing all the spatial
sizing calls and no generation call. -/
lemma imageSub_ok_trace (f : InputFile) (b : Bool) (p d : Int) (rs : Properties) (m : RDModel)
    (h : (CreateFromImageDataFile f b p d rs).result = .ok m) :
    ∃ pre, (CreateFromImageDataFile f b p d rs).trace
        = pre ++ (if f.rd.generateInitialPatternWhenLoading
            then [Event.generateInitialPattern] else [])
      ∧ Event.generateInitialPattern ∉ pre
      ∧ (∃ x y z, Event.setDimensions x y z ∈ pre)
      ∧ (∃ n, Event.setNumberOfChemicals n ∈ pre)
      ∧ Event.copyFromImage ∈ pre := by
  obtain ⟨fn, ot, img, ug, rd⟩ := f
  obtain ⟨ty, nm, ov, gen⟩ := rd
  cases img with
  | none => simp [CreateFromImageDataFile] at h
  | some image =>
    obtain ⟨pd, dx, dy, dz, nsc⟩ := image
    cases pd with
    | none => simp [CreateFromImageDataFile] at h
    | some arrs =>
      cases arrs with
      | nil => simp [CreateFromImageDataFile] at h
      | cons a0 rest =>
        unfold CreateFromImageDataFile at h ⊢
        dsimp only at h ⊢
        cases hsel : selectImageSystem ⟨ty, nm, ov, gen⟩ b p d a0.dataType with
        | error e2 => rw [hsel] at h; simp at h
        | ok sys =>
          refine ⟨Event.initFromXML ::
            (match ov with
             | some _ => [Event.overwriteRenderSettings]
             | none => ([] : List Event)) ++
            [Event.setDimensions dx dy dz,
             Event.setNumberOfChemicals (nsc * ((a0 :: rest).length : Int)),
             Event.copyFromImage], ?_, ?_, ?_, ?_, ?_⟩
          · cases ov <;> cases gen <;> simp
          · cases ov <;> simp
          · exact ⟨dx, dy, dz, by cases ov <;> simp⟩
          · exact ⟨nsc * ((a0 :: rest).length : Int), by cases ov <;> simp⟩
          · cases ov <;> simp

/-! ## Lemmas about `CreateFromUnstructuredGridFile` -/

/-- The mesh sub-constructor's trace contains no dispatch event. -/
lemma meshSub_trace_no_dispatch (f : InputFile) (b : Bool) (p d : Int) (rs : Properties) :
    ((CreateFromUnstructuredGridFile f b p d rs).trace.all fun e => !e.isDispatch) = true := by
  obtain ⟨fn, ot, img, ug, rd⟩ := f
  obtain ⟨ty, nm, ov, gen⟩ := rd
  cases ug with
  | none => rfl
  | some grid =>
    obtain ⟨cd⟩ := grid
    cases cd with
    | none => rfl
    | some arrs =>
      cases arrs with
      | nil => rfl
      | cons a0 rest =>
        unfold CreateFromUnstructuredGridFile
        dsimp only
        cases hsel : selectMeshSystem ⟨ty, nm, ov, gen⟩ b p d a0.dataType with
        | error e2 => rfl
        | ok sys => cases ov <;> cases gen <;> rfl

/-- Every failure exit of the mesh sub-constructor happens before the
render-settings overlay: on an error the store comes back untouched. -/
lemma meshSub_error_renderSettings (f : InputFile) (b : Bool) (p d : Int)
    (rs : Properties) (e : FactoryError)
    (h : (CreateFromUnstructuredGridFile f b p d rs).result = .error e) :
    (CreateFromUnstructuredGridFile f b p d rs).renderSettings = rs := by
  obtain ⟨fn, ot, img, ug, rd⟩ := f
  obtain ⟨ty, nm, ov, gen⟩ := rd
  cases ug with
  | none => rfl
  | some grid =>
    obtain ⟨cd⟩ := grid
    cases cd with
    | none => rfl
    | some arrs =>
      cases arrs with
      | nil => rfl
      | cons a0 rest =>
        unfold CreateFromUnstructuredGridFile at h ⊢
        dsimp only at h ⊢
        cases hsel : selectMeshSystem ⟨ty, nm, ov, gen⟩ b p d a0.dataType with
        | error e2 => rfl
        | ok sys =>
          rw [hsel] at h
          cases ov <;> cases gen <;> simp at h

/-- When the reader checks pass and rule selection fails, the mesh
sub-constructor propagates exactly the selection error. -/
lemma meshSub_sel_error (f : InputFile) (b : Bool) (p d : Int) (rs : Properties)
    (g : GridContent) (a0 : DataArray) (rest : List DataArray) (e : FactoryError)
    (hg : f.ugrid = some g) (hcd : g.cellData = some (a0 :: rest))
    (hsel : selectMeshSystem f.rd b p d a0.dataType = .error e) :
    (CreateFromUnstructuredGridFile f b p d rs).result = .error e := by
  obtain ⟨fn, ot, img, ug, rd⟩ := f
  subst hg
  obtain ⟨cd⟩ := g
  dsimp only at hcd hsel
  subst hcd
  unfold CreateFromUnstructuredGridFile
  dsimp only
  rw [hsel]

/-- When the reader checks pass and rule selection succeeds, the mesh
sub-constructor returns a model of the selected variant. -/
lemma meshSub_sel_ok (f : InputFile) (b : Bool) (p d : Int) (rs : Properties)
    (g : GridContent) (a0 : DataArray) (rest : List DataArray) (sys : RDSystem)
    (hg : f.ugrid = some g) (hcd : g.cellData = some (a0 :: rest))
    (hsel : selectMeshSystem f.rd b p d a0.dataType = .ok sys) :
    ∃ m, (CreateFromUnstructuredGridFile f b p d rs).result = .ok m ∧ m.system = sys := by
  obtain ⟨fn, ot, img, ug, rd⟩ := f
  subst hg
  obtain ⟨cd⟩ := g
  dsimp only at hcd hsel
  subst hcd
  unfold CreateFromUnstructuredGridFile
  dsimp only
  rw [hsel]
  obtain ⟨ty, nm, ov, gen⟩ := rd
  cases gen <;> exact ⟨_, rfl, rfl⟩

/-- A successful mesh construction's trace ends with the optional
initial-pattern generation, after a prefix containing the field-data copy-in
and no generation call. -/
lemma meshSub_ok_trace (f : InputFile) (b : Bool) (p d : Int) (rs : Properties) (m : RDModel)
    (h : (CreateFromUnstructuredGridFile f b p d rs).result = .ok m) :
    ∃ pre, (CreateFromUnstructuredGridFile f b p d rs).trace
        = pre ++ (if f.rd.generateInitialPatternWhenLoading
            then [Event.generateInitialPattern] else [])
      ∧ Event.generateInitialPattern ∉ pre
      ∧ Event.copyFromMesh ∈ pre := by
  obtain ⟨fn, ot, img, ug, rd⟩ := f
  obtain ⟨ty, nm, ov, gen⟩ := rd
  cases ug with
  | none => simp [CreateFromUnstructuredGridFile] at h
  | some grid =>
    obtain ⟨cd⟩ := grid
    cases cd with
    | none => simp [CreateFromUnstructuredGridFile] at h
    | some arrs =>
      cases arrs with
      | nil => simp [CreateFromUnstructuredGridFile] at h
      | cons a0 rest =>
        unfold CreateFromUnstructuredGridFile at h ⊢
        dsimp only at h ⊢
        cases hsel : selectMeshSystem ⟨ty, nm, ov, gen⟩ b p d a0.dataType with
        | error e2 => rw [hsel] at h; simp at h
        | ok sys =>
          refine ⟨Event.initFromXML :: Event.copyFromMesh ::
            (match ov with
             | some _ => [Event.overwriteRenderSettings]
             | none => ([] : List Event)), ?_, ?_, ?_⟩
          · cases ov <;> cases gen <;> simp
          · cases ov <;> simp
          · cases ov <;> simp
/-! ## Lemmas about rule-variant selection -/

/-- For `type == "inbuilt"` and `name == "Gray-Scott"`, the image selection
yields the Gray-Scott image variant. -/
lemma selectImageSystem_gray (rd : RDDescriptor) (b : Bool) (p d dt : Int)
    (ht : rd.type = "inbuilt") (hn : rd.name = "Gray-Scott") :
    selectImageSystem rd b p d dt = .ok .grayScottImage := by
  simp [selectImageSystem, ht, hn]

/-- For `type == "inbuilt"` and an unknown name the image selection fails
with the unsupported-inbuilt error carrying that name. -/
lemma selectImageSystem_inbuilt_unknown (rd : RDDescriptor) (b : Bool) (p d dt : Int)
    (ht : rd.type = "inbuilt") (hn : rd.name ≠ "Gray-Scott") :
    selectImageSystem rd b p d dt = .error (.unsupportedInbuilt rd.name) := by
  simp [selectImageSystem, ht, hn]

/-- For `type == "formula"` or `type == "kernel"` without OpenCL, the image
selection fails with the compute-unavailable error. -/
lemma selectImageSystem_noOpenCL (rd : RDDescriptor) (p d dt : Int)
    (ht : rd.type = "formula" ∨ rd.type = "kernel") :
    selectImageSystem rd false p d dt = .error .computeUnavailable := by
  cases ht with
  | inl h => simp [selectImageSystem, h]
  | inr h => simp [selectImageSystem, h]

/-- For `type == "inbuilt"` and `name == "Gray-Scott"`, the mesh selection
yields the Gray-Scott mesh variant. -/
lemma selectMeshSystem_gray (rd : RDDescriptor) (b : Bool) (p d dt : Int)
    (ht : rd.type = "inbuilt") (hn : rd.name = "Gray-Scott") :
    selectMeshSystem rd b p d dt = .ok .grayScottMesh := by
  simp [selectMeshSystem, ht, hn]

/-- For `type == "inbuilt"` and an unknown name the mesh selection fails
with the unsupported-inbuilt error carrying that name. -/
lemma selectMeshSystem_inbuilt_unknown (rd : RDDescriptor) (b : Bool) (p d dt : Int)
    (ht : rd.type = "inbuilt") (hn : rd.name ≠ "Gray-Scott") :
    selectMeshSystem rd b p d dt = .error (.unsupportedInbuilt rd.name) := by
  simp [selectMeshSystem, ht, hn]

/-- For `type == "formula"` or `type == "kernel"` without OpenCL, the mesh
selection fails with the compute-unavailable error. -/
lemma selectMeshSystem_noOpenCL (rd : RDDescriptor) (p d dt : Int)
    (ht : rd.type = "formula" ∨ rd.type = "kernel") :
    selectMeshSystem rd false p d dt = .error .computeUnavailable := by
  cases ht with
  | inl h => simp [selectMeshSystem, h]
  | inr h => simp [selectMeshSystem, h]

/-- Outside the `inbuilt` branch the `name` tag is never consulted by the
image selection. -/
lemma selectImageSystem_name_irrelevant (rd : RDDescriptor) (b : Bool) (p d dt : Int)
    (n2 : String) (ht : rd.type ≠ "inbuilt") :
    selectImageSystem { rd with name := n2 } b p d dt = selectImageSystem rd b p d dt := by
  simp [selectImageSystem, ht]

/-- Outside the `inbuilt` branch the `name` tag is never consulted by the
mesh selection. -/
lemma selectMeshSystem_name_irrelevant (rd : RDDescriptor) (b : Bool) (p d dt : Int)
    (n2 : String) (ht : rd.type ≠ "inbuilt") :
    selectMeshSystem { rd with name := n2 } b p d dt = selectMeshSystem rd b p d dt := by
  simp [selectMeshSystem, ht]

/-! ## Lemmas about `CreateFromFile` -/

/-- On an image-data file whose sub-construction throws, `CreateFromFile`
propagates the error with the locale left at `"C"`. -/
lemma createFromFile_image_error (f : InputFile) (b : Bool) (p d : Int) (st : ProcState)
    (e : FactoryError) (hot : f.outputType = VTK_IMAGE_DATA)
    (he : (CreateFromImageDataFile f b p d st.renderSettings).result = .error e) :
    CreateFromFile f b p d st =
      (.error e,
        ⟨"C", (CreateFromImageDataFile f b p d st.renderSettings).renderSettings,
          st.trace ++ Event.callImageSub ::
            (CreateFromImageDataFile f b p d st.renderSettings).trace⟩) := by
  unfold CreateFromFile setlocaleNumeric
  rw [if_pos hot]
  dsimp only
  rw [he]

/-- On an image-data file whose sub-construction returns a model,
`CreateFromFile` stamps the filename and clears the modified flag; the
trailing `setlocale(LC_NUMERIC, old_locale)` runs but, `old_locale` being
`setlocale`'s return value `"C"`, the locale stays at the override. -/
lemma createFromFile_image_ok (f : InputFile) (b : Bool) (p d : Int) (st : ProcState)
    (m : RDModel) (hot : f.outputType = VTK_IMAGE_DATA)
    (hm : (CreateFromImageDataFile f b p d st.renderSettings).result = .ok m) :
    CreateFromFile f b p d st =
      (.ok { m with filename := f.filename, modified := false },
        ⟨"C", (CreateFromImageDataFile f b p d st.renderSettings).renderSettings,
          (st.trace ++ Event.callImageSub ::
            (CreateFromImageDataFile f b p d st.renderSettings).trace) ++
            [.setFilename f.filename, .setModified false]⟩) := by
  unfold CreateFromFile setlocaleNumeric
  rw [if_pos hot]
  dsimp only
  rw [hm]

/-- On an unstructured-grid file whose sub-construction throws,
`CreateFromFile` propagates the error with the locale left at `"C"`. -/
lemma createFromFile_mesh_error (f : InputFile) (b : Bool) (p d : Int) (st : ProcState)
    (e : FactoryError) (hot : f.outputType = VTK_UNSTRUCTURED_GRID)
    (he : (CreateFromUnstructuredGridFile f b p d st.renderSettings).result = .error e) :
    CreateFromFile f b p d st =
      (.error e,
        ⟨"C", (CreateFromUnstructuredGridFile f b p d st.renderSettings).renderSettings,
          st.trace ++ Event.callMeshSub ::
            (CreateFromUnstructuredGridFile f b p d st.renderSettings).trace⟩) := by
  unfold CreateFromFile setlocaleNumeric
  rw [if_neg (by rw [hot]; decide), if_pos hot]
  dsimp only
  rw [he]

/-- On an unstructured-grid file whose sub-construction returns a model,
`CreateFromFile` stamps the filename and clears the modified flag; the
trailing `setlocale(LC_NUMERIC, old_locale)` runs but, `old_locale` being
`setlocale`'s return value `"C"`, the locale stays at the override. -/
lemma createFromFile_mesh_ok (f : InputFile) (b : Bool) (p d : Int) (st : ProcState)
    (m : RDModel) (hot : f.outputType = VTK_UNSTRUCTURED_GRID)
    (hm : (CreateFromUnstructuredGridFile f b p d st.renderSettings).result = .ok m) :
    CreateFromFile f b p d st =
      (.ok { m with filename := f.filename, modified := false },
        ⟨"C", (CreateFromUnstructuredGridFile f b p d st.renderSettings).renderSettings,
          (st.trace ++ Event.callMeshSub ::
            (CreateFromUnstructuredGridFile f b p d st.renderSettings).trace) ++
            [.setFilename f.filename, .setModified false]⟩) := by
  unfold CreateFromFile setlocaleNumeric
  rw [if_neg (by rw [hot]; decide), if_pos hot]
  dsimp only
  rw [hm]

/-- On any other declared output type, `CreateFromFile` fails with the
unsupported-data-type error before touching the render settings, with the
locale left at `"C"`. -/
lemma createFromFile_other (f : InputFile) (b : Bool) (p d : Int) (st : ProcState)
    (hot1 : f.outputType ≠ VTK_IMAGE_DATA) (hot2 : f.outputType ≠ VTK_UNSTRUCTURED_GRID) :
    CreateFromFile f b p d st =
      (.error .unsupportedDataType, ⟨"C", st.renderSettings, st.trace⟩) := by
  unfold CreateFromFile setlocaleNumeric
  rw [if_neg hot1, if_neg hot2]
/-! ## Further inversion lemmas -/

/-- If the image sub-constructor returns a model, the reader checks passed and
the rule selection succeeded with that model's variant. -/
lemma imageSub_ok_inv (f : InputFile) (b : Bool) (p d : Int) (rs : Properties) (m : RDModel)
    (h : (CreateFromImageDataFile f b p d rs).result = .ok m) :
    ∃ c a0 rest, f.image = some c ∧ c.pointData = some (a0 :: rest) ∧
      selectImageSystem f.rd b p d a0.dataType = .ok m.system := by
  obtain ⟨fn, ot, img, ug, rd⟩ := f
  cases img with
  | none => simp [CreateFromImageDataFile] at h
  | some image =>
    obtain ⟨pd, dx, dy, dz, nsc⟩ := image
    cases pd with
    | none => simp [CreateFromImageDataFile] at h
    | some arrs =>
      cases arrs with
      | nil => simp [CreateFromImageDataFile] at h
      | cons a0 rest =>
        unfold CreateFromImageDataFile at h
        dsimp only at h
        cases hsel : selectImageSystem rd b p d a0.dataType with
        | error e2 => rw [hsel] at h; simp at h
        | ok sys =>
          rw [hsel] at h
          refine ⟨_, a0, rest, rfl, rfl, ?_⟩
          obtain ⟨ty, nm, ov, gen⟩ := rd
          cases gen <;> simp only [Bool.false_eq_true, if_false, if_true, reduceIte] at h <;>
            rw [Except.ok.injEq] at h <;> rw [← h] <;> exact hsel

/-- If the mesh sub-constructor returns a model, the reader checks passed and
the rule selection succeeded with that model's variant. -/
lemma meshSub_ok_inv (f : InputFile) (b : Bool) (p d : Int) (rs : Properties) (m : RDModel)
    (h : (CreateFromUnstructuredGridFile f b p d rs).result = .ok m) :
    ∃ g a0 rest, f.ugrid = some g ∧ g.cellData = some (a0 :: rest) ∧
      selectMeshSystem f.rd b p d a0.dataType = .ok m.system := by
  obtain ⟨fn, ot, img, ug, rd⟩ := f
  cases ug with
  | none => simp [CreateFromUnstructuredGridFile] at h
  | some grid =>
    obtain ⟨cd⟩ := grid
    cases cd with
    | none => simp [CreateFromUnstructuredGridFile] at h
    | some arrs =>
      cases arrs with
      | nil => simp [CreateFromUnstructuredGridFile] at h
      | cons a0 rest =>
        unfold CreateFromUnstructuredGridFile at h
        dsimp only at h
        cases hsel : selectMeshSystem rd b p d a0.dataType with
        | error e2 => rw [hsel] at h; simp at h
        | ok sys =>
          rw [hsel] at h
          refine ⟨_, a0, rest, rfl, rfl, ?_⟩
          obtain ⟨ty, nm, ov, gen⟩ := rd
          cases gen <;> simp only [Bool.false_eq_true, if_false, if_true, reduceIte] at h <;>
            rw [Except.ok.injEq] at h <;> rw [← h] <;> exact hsel

/-- A present image with a NULL point-data section fails with the dedicated
missing-section error. -/
lemma imageSub_noPointData (f : InputFile) (b : Bool) (p d : Int) (rs : Properties)
    (c : ImageContent) (himg : f.image = some c) (hpd : c.pointData = none) :
    (CreateFromImageDataFile f b p d rs).result = .error .imageHasNoPointData := by
  obtain ⟨fn, ot, img, ug, rd⟩ := f
  subst himg
  obtain ⟨pd, dx, dy, dz, nsc⟩ := c
  dsimp only at hpd
  subst hpd
  rfl

/-- A present image whose point-data section has no arrays fails with the
dedicated empty-section error. -/
lemma imageSub_noArrays (f : InputFile) (b : Bool) (p d : Int) (rs : Properties)
    (c : ImageContent) (himg : f.image = some c) (hpd : c.pointData = some []) :
    (CreateFromImageDataFile f b p d rs).result = .error .noArraysInImagePointData := by
  obtain ⟨fn, ot, img, ug, rd⟩ := f
  subst himg
  obtain ⟨pd, dx, dy, dz, nsc⟩ := c
  dsimp only at hpd
  subst hpd
  rfl

/-- A present unstructured grid with a NULL cell-data section fails with the
dedicated missing-section error. -/
lemma meshSub_noCellData (f : InputFile) (b : Bool) (p d : Int) (rs : Properties)
    (g : GridContent) (hg : f.ugrid = some g) (hcd : g.cellData = none) :
    (CreateFromUnstructuredGridFile f b p d rs).result = .error .gridHasNoCellData := by
  obtain ⟨fn, ot, img, ug, rd⟩ := f
  subst hg
  obtain ⟨cd⟩ := g
  dsimp only at hcd
  subst hcd
  rfl

/-- A present unstructured grid whose cell-data section has no arrays fails
with the dedicated empty-section error. -/
lemma meshSub_noArrays (f : InputFile) (b : Bool) (p d : Int) (rs : Properties)
    (g : GridContent) (hg : f.ugrid = some g) (hcd : g.cellData = some []) :
    (CreateFromUnstructuredGridFile f b p d rs).result = .error .noArraysInGridCellData := by
  obtain ⟨fn, ot, img, ug, rd⟩ := f
  subst hg
  obtain ⟨cd⟩ := g
  dsimp only at hcd
  subst hcd
  rfl

/-- On success the image sub-constructor's store is the input store with the
optional overlay applied. -/
lemma imageSub_ok_renderSettings (f : InputFile) (b : Bool) (p d : Int) (rs : Properties)
    (m : RDModel) (h : (CreateFromImageDataFile f b p d rs).result = .ok m) :
    (CreateFromImageDataFile f b p d rs).renderSettings =
      match f.rd.renderSettings with
      | some ov => rs.overwriteFromXML ov
      | none => rs := by
  obtain ⟨fn, ot, img, ug, rd⟩ := f
  cases img with
  | none => simp [CreateFromImageDataFile] at h
  | some image =>
    obtain ⟨pd, dx, dy, dz, nsc⟩ := image
    cases pd with
    | none => simp [CreateFromImageDataFile] at h
    | some arrs =>
      cases arrs with
      | nil => simp [CreateFromImageDataFile] at h
      | cons a0 rest =>
        unfold CreateFromImageDataFile at h ⊢
        dsimp only at h ⊢
        cases hsel : selectImageSystem rd b p d a0.dataType with
        | error e2 => rw [hsel] at h; simp at h
        | ok sys =>
          obtain ⟨ty, nm, ov, gen⟩ := rd
          cases ov <;> cases gen <;> rfl

/-- On success the mesh sub-constructor's store is the input store with the
optional overlay applied. -/
lemma meshSub_ok_renderSettings (f : InputFile) (b : Bool) (p d : Int) (rs : Properties)
    (m : RDModel) (h : (CreateFromUnstructuredGridFile f b p d rs).result = .ok m) :
    (CreateFromUnstructuredGridFile f b p d rs).renderSettings =
      match f.rd.renderSettings with
      | some ov => rs.overwriteFromXML ov
      | none => rs := by
  obtain ⟨fn, ot, img, ug, rd⟩ := f
  cases ug with
  | none => simp [CreateFromUnstructuredGridFile] at h
  | some grid =>
    obtain ⟨cd⟩ := grid
    cases cd with
    | none => simp [CreateFromUnstructuredGridFile] at h
    | some arrs =>
      cases arrs with
      | nil => simp [CreateFromUnstructuredGridFile] at h
      | cons a0 rest =>
        unfold CreateFromUnstructuredGridFile at h ⊢
        dsimp only at h ⊢
        cases hsel : selectMeshSystem rd b p d a0.dataType with
        | error e2 => rw [hsel] at h; simp at h
        | ok sys =>
          obtain ⟨ty, nm, ov, gen⟩ := rd
          cases ov <;> cases gen <;> rfl

/-- Unfolding `contentChecksPass` on an image-data file. -/
lemma contentChecksPass_image (f : InputFile) (hot : f.outputType = VTK_IMAGE_DATA)
    (h : contentChecksPass f = true) :
    ∃ c a0 rest, f.image = some c ∧ c.pointData = some (a0 :: rest) := by
  unfold contentChecksPass at h
  rw [if_pos hot] at h
  cases himg : f.image with
  | none => rw [himg] at h; simp at h
  | some c =>
    rw [himg] at h
    dsimp only at h
    cases hpd : c.pointData with
    | none => rw [hpd] at h; simp at h
    | some arrs =>
      rw [hpd] at h
      cases arrs with
      | nil => simp at h
      | cons a0 rest => exact ⟨c, a0, rest, rfl, hpd⟩

/-- Unfolding `contentChecksPass` on an unstructured-grid file. -/
lemma contentChecksPass_mesh (f : InputFile) (hot : f.outputType = VTK_UNSTRUCTURED_GRID)
    (h : contentChecksPass f = true) :
    ∃ g a0 rest, f.ugrid = some g ∧ g.cellData = some (a0 :: rest) := by
  unfold contentChecksPass at h
  rw [if_neg (by rw [hot]; decide), if_pos hot] at h
  cases hg : f.ugrid with
  | none => rw [hg] at h; simp at h
  | some g =>
    rw [hg] at h
    dsimp only at h
    cases hcd : g.cellData with
    | none => rw [hcd] at h; simp at h
    | some arrs =>
      rw [hcd] at h
      cases arrs with
      | nil => simp at h
      | cons a0 rest => exact ⟨g, a0, rest, rfl, hcd⟩

/-- A trace all of whose events are non-dispatch contains neither dispatch
event. -/
lemma no_dispatch_of_all (tr : List Event)
    (h : (tr.all fun e => !e.isDispatch) = true) :
    Event.callImageSub ∉ tr ∧ Event.callMeshSub ∉ tr := by
  rw [List.all_eq_true] at h
  constructor <;> intro hc <;> have hx := h _ hc <;> simp [Event.isDispatch] at hx
/-! ## Claim theorems -/

/-- C1, counterexample: the claim "the process numeric locale after the call
equals its value before the call, on every exit path" is false on both kinds
of exit path. Starting from locale `"de_DE"`: a file with an unsupported
declared output type throws, skipping the `setlocale(LC_NUMERIC, old_locale)`
call after the `switch`, and the locale stays `"C"`; and a well-formed
Gray-Scott file returns a model, yet the locale is still `"C"` afterwards,
because `old_locale` holds `setlocale(LC_NUMERIC,"C")`'s return value — the
string for the NEW locale (C11 7.11.1.1) — so the trailing call re-installs
`"C"` instead of the pre-call locale. -/
theorem C1_counterexample :
    ((CreateFromFile ⟨"/tmp/a.vtp", 0, none, none, ⟨"inbuilt", "Gray-Scott", none, false⟩⟩
        false 0 0 ⟨"de_DE", [], []⟩).1 = .error .unsupportedDataType
      ∧ (CreateFromFile ⟨"/tmp/a.vtp", 0, none, none, ⟨"inbuilt", "Gray-Scott", none, false⟩⟩
        false 0 0 ⟨"de_DE", [], []⟩).2.localeNumeric ≠ "de_DE"
      ∧ (CreateFromFile ⟨"/tmp/a.vtp", 0, none, none, ⟨"inbuilt", "Gray-Scott", none, false⟩⟩
        false 0 0 ⟨"de_DE", [], []⟩).2.localeNumeric = "C")
    ∧ (resultOk (CreateFromFile ⟨"/tmp/g.vti", 6, some ⟨some [⟨10⟩], 2, 2, 1, 1⟩, none,
        ⟨"inbuilt", "Gray-Scott", none, false⟩⟩ false 0 0 ⟨"de_DE", [], []⟩).1 = true
      ∧ (CreateFromFile ⟨"/tmp/g.vti", 6, some ⟨some [⟨10⟩], 2, 2, 1, 1⟩, none,
        ⟨"inbuilt", "Gray-Scott", none, false⟩⟩ false 0 0 ⟨"de_DE", [], []⟩).2.localeNumeric
          ≠ "de_DE"
      ∧ (CreateFromFile ⟨"/tmp/g.vti", 6, some ⟨some [⟨10⟩], 2, 2, 1, 1⟩, none,
        ⟨"inbuilt", "Gray-Scott", none, false⟩⟩ false 0 0 ⟨"de_DE", [], []⟩).2.localeNumeric
          = "C") := by
  exact ⟨⟨by decide, by decide, by decide⟩, ⟨by decide, by decide, by decide⟩⟩

/-- C1, amended: after every `CreateFromFile` call — model returned or error
propagated — the process numeric locale is the `"C"` override. The pre-call
locale is never restored: `setlocale(LC_NUMERIC,"C")` returns the string for
the new locale, so `old_locale` is `"C"` and the trailing
`setlocale(LC_NUMERIC, old_locale)` (reached only on success anyway) merely
re-installs the override. -/
theorem C1_locale_never_restored (f : InputFile) (b : Bool) (p d : Int)
    (st : ProcState) :
    (CreateFromFile f b p d st).2.localeNumeric = "C" := by
  by_cases h1 : f.outputType = VTK_IMAGE_DATA
  · cases hres : (CreateFromImageDataFile f b p d st.renderSettings).result with
    | error e => rw [createFromFile_image_error f b p d st e h1 hres]
    | ok m => rw [createFromFile_image_ok f b p d st m h1 hres]
  · by_cases h2 : f.outputType = VTK_UNSTRUCTURED_GRID
    · cases hres : (CreateFromUnstructuredGridFile f b p d st.renderSettings).result with
      | error e => rw [createFromFile_mesh_error f b p d st e h2 hres]
      | ok m => rw [createFromFile_mesh_ok f b p d st m h2 hres]
    · rw [createFromFile_other f b p d st h1 h2]

/-- C2, counterexample: with `gpu_available = false` and `type = "formula"`,
a file whose point-data section has no arrays fails with the missing-arrays
error, not the compute-unavailable one — the reader-content checks run before
the type check — so "always fails with ComputeUnavailableError, regardless of
file content validity" is false. -/
theorem C2_counterexample :
    (CreateFromFile ⟨"/tmp/b.vti", 6, some ⟨some [], 1, 1, 1, 1⟩, none,
        ⟨"formula", "anything", none, false⟩⟩ false 0 0 ⟨"C", [], []⟩).1
      = .error .noArraysInImagePointData
    ∧ FactoryError.noArraysInImagePointData ≠ FactoryError.computeUnavailable := by
  exact ⟨by decide, by decide⟩

/-- C2, amended: for `type = "formula"` or `"kernel"` with
`gpu_available = false`, `CreateFromFile` never returns a model; and whenever
the container passes the readability/data-presence checks the error is the
compute-unavailable one, whose message is the installation/setup guidance
text. -/
theorem C2_no_opencl_never_returns_model (f : InputFile) (p d : Int) (st : ProcState)
    (ht : f.rd.type = "formula" ∨ f.rd.type = "kernel") :
    resultOk (CreateFromFile f false p d st).1 = false
    ∧ (contentChecksPass f = true →
        (CreateFromFile f false p d st).1 = .error .computeUnavailable
        ∧ FactoryError.message .computeUnavailable = openCLInstallationHints) := by
  by_cases h1 : f.outputType = VTK_IMAGE_DATA
  · cases hres : (CreateFromImageDataFile f false p d st.renderSettings).result with
    | error e =>
      constructor
      · rw [createFromFile_image_error f false p d st e h1 hres]; rfl
      · intro hcp
        obtain ⟨c, a0, rest, himg, hpd⟩ := contentChecksPass_image f h1 hcp
        have hsel := selectImageSystem_noOpenCL f.rd p d a0.dataType ht
        have hsub := imageSub_sel_error f false p d st.renderSettings c a0 rest _ himg hpd hsel
        rw [createFromFile_image_error f false p d st _ h1 hsub]
        exact ⟨rfl, rfl⟩
    | ok m =>
      exfalso
      obtain ⟨c, a0, rest, himg, hpd, hselok⟩ :=
        imageSub_ok_inv f false p d st.renderSettings m hres
      rw [selectImageSystem_noOpenCL f.rd p d a0.dataType ht] at hselok
      simp at hselok
  · by_cases h2 : f.outputType = VTK_UNSTRUCTURED_GRID
    · cases hres : (CreateFromUnstructuredGridFile f false p d st.renderSettings).result with
      | error e =>
        constructor
        · rw [createFromFile_mesh_error f false p d st e h2 hres]; rfl
        · intro hcp
          obtain ⟨g, a0, rest, hg, hcd⟩ := contentChecksPass_mesh f h2 hcp
          have hsel := selectMeshSystem_noOpenCL f.rd p d a0.dataType ht
          have hsub := meshSub_sel_error f false p d st.renderSettings g a0 rest _ hg hcd hsel
          rw [createFromFile_mesh_error f false p d st _ h2 hsub]
          exact ⟨rfl, rfl⟩
      | ok m =>
        exfalso
        obtain ⟨g, a0, rest, hg, hcd, hselok⟩ :=
          meshSub_ok_inv f false p d st.renderSettings m hres
        rw [selectMeshSystem_noOpenCL f.rd p d a0.dataType ht] at hselok
        simp at hselok
    · constructor
      · rw [createFromFile_other f false p d st h1 h2]; rfl
      · intro hcp
        exfalso
        unfold contentChecksPass at hcp
        rw [if_neg h1, if_neg h2] at hcp
        simp at hcp

/-- C2 witness: a well-formed formula file without OpenCL fails with the
compute-unavailable error carrying the installation-hints message. -/
theorem C2_witness :
    resultOk (CreateFromFile ⟨"/tmp/c.vti", 6, some ⟨some [⟨10⟩], 8, 8, 1, 1⟩, none,
        ⟨"formula", "n", none, false⟩⟩ false 0 0 ⟨"C", [], []⟩).1 = false
    ∧ (CreateFromFile ⟨"/tmp/c.vti", 6, some ⟨some [⟨10⟩], 8, 8, 1, 1⟩, none,
        ⟨"formula", "n", none, false⟩⟩ false 0 0 ⟨"C", [], []⟩).1
        = .error .computeUnavailable := by
  have h := C2_no_opencl_never_returns_model
    ⟨"/tmp/c.vti", 6, some ⟨some [⟨10⟩], 8, 8, 1, 1⟩, none,
      ⟨"formula", "n", none, false⟩⟩ 0 0 ⟨"C", [], []⟩ (Or.inl rfl)
  exact ⟨h.1, (h.2 (by decide)).1⟩

/-- C3: the factory recognizes exactly two container topologies — an
image-data file is handed to the image sub-constructor and never the mesh
one, an unstructured-grid file to the mesh sub-constructor and never the
image one, and any other declared output type fails with the
unsupported-data-type error with neither sub-constructor invoked. -/
theorem C3_topology_dispatch (f : InputFile) (b : Bool) (p d : Int) (st : ProcState)
    (h0 : st.trace = []) :
    (f.outputType = VTK_IMAGE_DATA →
        Event.callImageSub ∈ (CreateFromFile f b p d st).2.trace
        ∧ Event.callMeshSub ∉ (CreateFromFile f b p d st).2.trace)
    ∧ (f.outputType = VTK_UNSTRUCTURED_GRID →
        Event.callMeshSub ∈ (CreateFromFile f b p d st).2.trace
        ∧ Event.callImageSub ∉ (CreateFromFile f b p d st).2.trace)
    ∧ (f.outputType ≠ VTK_IMAGE_DATA → f.outputType ≠ VTK_UNSTRUCTURED_GRID →
        (CreateFromFile f b p d st).1 = .error .unsupportedDataType
        ∧ Event.callImageSub ∉ (CreateFromFile f b p d st).2.trace
        ∧ Event.callMeshSub ∉ (CreateFromFile f b p d st).2.trace) := by
  refine ⟨?_, ?_, ?_⟩
  · intro h1
    have hnd := no_dispatch_of_all _ (imageSub_trace_no_dispatch f b p d st.renderSettings)
    cases hres : (CreateFromImageDataFile f b p d st.renderSettings).result with
    | error e =>
      rw [createFromFile_image_error f b p d st e h1 hres]
      dsimp only
      rw [h0]
      exact ⟨by simp, by simp [hnd.2]⟩
    | ok m =>
      rw [createFromFile_image_ok f b p d st m h1 hres]
      dsimp only
      rw [h0]
      exact ⟨by simp, by simp [hnd.2]⟩
  · intro h2
    have hnd := no_dispatch_of_all _ (meshSub_trace_no_dispatch f b p d st.renderSettings)
    cases hres : (CreateFromUnstructuredGridFile f b p d st.renderSettings).result with
    | error e =>
      rw [createFromFile_mesh_error f b p d st e h2 hres]
      dsimp only
      rw [h0]
      exact ⟨by simp, by simp [hnd.1]⟩
    | ok m =>
      rw [createFromFile_mesh_ok f b p d st m h2 hres]
      dsimp only
      rw [h0]
      exact ⟨by simp, by simp [hnd.1]⟩
  · intro h1 h2
    rw [createFromFile_other f b p d st h1 h2]
    dsimp only
    rw [h0]
    exact ⟨rfl, by simp, by simp⟩

/-- C3 witness: on a concrete image-data file the image sub-constructor runs
and the mesh one does not. -/
theorem C3_witness :
    Event.callImageSub ∈ (CreateFromFile ⟨"/w.vti", 6, some ⟨some [⟨10⟩], 2, 2, 1, 1⟩, none,
        ⟨"inbuilt", "Gray-Scott", none, false⟩⟩ true 0 0 ⟨"C", [], []⟩).2.trace
    ∧ Event.callMeshSub ∉ (CreateFromFile ⟨"/w.vti", 6, some ⟨some [⟨10⟩], 2, 2, 1, 1⟩, none,
        ⟨"inbuilt", "Gray-Scott", none, false⟩⟩ true 0 0 ⟨"C", [], []⟩).2.trace :=
  (C3_topology_dispatch ⟨"/w.vti", 6, some ⟨some [⟨10⟩], 2, 2, 1, 1⟩, none,
      ⟨"inbuilt", "Gray-Scott", none, false⟩⟩ true 0 0 ⟨"C", [], []⟩ rfl).1 rfl
/-- C4: on a readable file whose data checks pass, with `type = "inbuilt"`:
the name "Gray-Scott" yields a model whose variant needs no compute backend
(no platform/device binding), and any other name fails with the
unsupported-inbuilt error carrying that name — on the image path and on the
mesh path alike. -/
theorem C4_inbuilt_rule (f : InputFile) (b : Bool) (p d : Int) (st : ProcState)
    (ht : f.rd.type = "inbuilt") (hcp : contentChecksPass f = true) :
    (f.rd.name = "Gray-Scott" →
        ∃ m, (CreateFromFile f b p d st).1 = .ok m
          ∧ m.system.requiresComputeBackend = false)
    ∧ (f.rd.name ≠ "Gray-Scott" →
        (CreateFromFile f b p d st).1 = .error (.unsupportedInbuilt f.rd.name)) := by
  by_cases h1 : f.outputType = VTK_IMAGE_DATA
  · obtain ⟨c, a0, rest, himg, hpd⟩ := contentChecksPass_image f h1 hcp
    constructor
    · intro hn
      have hsel := selectImageSystem_gray f.rd b p d a0.dataType ht hn
      obtain ⟨m, hok, hsys⟩ :=
        imageSub_sel_ok f b p d st.renderSettings c a0 rest _ himg hpd hsel
      refine ⟨{ m with filename := f.filename, modified := false }, ?_, ?_⟩
      · rw [createFromFile_image_ok f b p d st m h1 hok]
      · simp [RDSystem.requiresComputeBackend, hsys]
    · intro hn
      have hsel := selectImageSystem_inbuilt_unknown f.rd b p d a0.dataType ht hn
      have hsub := imageSub_sel_error f b p d st.renderSettings c a0 rest _ himg hpd hsel
      rw [createFromFile_image_error f b p d st _ h1 hsub]
  · by_cases h2 : f.outputType = VTK_UNSTRUCTURED_GRID
    · obtain ⟨g, a0, rest, hg, hcd⟩ := contentChecksPass_mesh f h2 hcp
      constructor
      · intro hn
        have hsel := selectMeshSystem_gray f.rd b p d a0.dataType ht hn
        obtain ⟨m, hok, hsys⟩ :=
          meshSub_sel_ok f b p d st.renderSettings g a0 rest _ hg hcd hsel
        refine ⟨{ m with filename := f.filename, modified := false }, ?_, ?_⟩
        · rw [createFromFile_mesh_ok f b p d st m h2 hok]
        · simp [RDSystem.requiresComputeBackend, hsys]
      · intro hn
        have hsel := selectMeshSystem_inbuilt_unknown f.rd b p d a0.dataType ht hn
        have hsub := meshSub_sel_error f b p d st.renderSettings g a0 rest _ hg hcd hsel
        rw [createFromFile_mesh_error f b p d st _ h2 hsub]
    · exfalso
      unfold contentChecksPass at hcp
      rw [if_neg h1, if_neg h2] at hcp
      simp at hcp

/-- C4 witness: a concrete Gray-Scott image file succeeds with a
backend-free variant, and the same file with name "Bogus" fails with the
unsupported-inbuilt error. -/
theorem C4_witness :
    (∃ m, (CreateFromFile ⟨"/g.vti", 6, some ⟨some [⟨10⟩], 4, 4, 1, 2⟩, none,
        ⟨"inbuilt", "Gray-Scott", none, false⟩⟩ false 0 0 ⟨"C", [], []⟩).1 = .ok m
      ∧ m.system.requiresComputeBackend = false)
    ∧ (CreateFromFile ⟨"/g.vti", 6, some ⟨some [⟨10⟩], 4, 4, 1, 2⟩, none,
        ⟨"inbuilt", "Bogus", none, false⟩⟩ false 0 0 ⟨"C", [], []⟩).1
      = .error (.unsupportedInbuilt "Bogus") :=
  ⟨(C4_inbuilt_rule ⟨"/g.vti", 6, some ⟨some [⟨10⟩], 4, 4, 1, 2⟩, none,
      ⟨"inbuilt", "Gray-Scott", none, false⟩⟩ false 0 0 ⟨"C", [], []⟩ rfl
      (by decide)).1 rfl,
   (C4_inbuilt_rule ⟨"/g.vti", 6, some ⟨some [⟨10⟩], 4, 4, 1, 2⟩, none,
      ⟨"inbuilt", "Bogus", none, false⟩⟩ false 0 0 ⟨"C", [], []⟩ rfl
      (by decide)).2 (by decide)⟩

/-- C5: a successful construction from an image-data file yields a model
whose dimensions equal the image's, whose chemical count is
scalar-components-per-element times the number of point-data arrays, whose
filename is the input path and whose modified flag is cleared. -/
theorem C5_grid_model_fields (f : InputFile) (b : Bool) (p d : Int) (st : ProcState)
    (c : ImageContent) (arrs : List DataArray) (m : RDModel)
    (hot : f.outputType = VTK_IMAGE_DATA) (himg : f.image = some c)
    (hpd : c.pointData = some arrs)
    (hok : (CreateFromFile f b p d st).1 = .ok m) :
    m.dimX = c.dimX ∧ m.dimY = c.dimY ∧ m.dimZ = c.dimZ
    ∧ m.numberOfChemicals = c.numScalarComponents * (arrs.length : Int)
    ∧ m.filename = f.filename ∧ m.modified = false := by
  cases hres : (CreateFromImageDataFile f b p d st.renderSettings).result with
  | error e =>
    rw [createFromFile_image_error f b p d st e hot hres] at hok
    simp at hok
  | ok m0 =>
    rw [createFromFile_image_ok f b p d st m0 hot hres] at hok
    dsimp only at hok
    rw [Except.ok.injEq] at hok
    obtain ⟨arrs2, hpd2, hdx, hdy, hdz, hnc⟩ :=
      imageSub_ok_model f b p d st.renderSettings c m0 himg hres
    rw [hpd] at hpd2
    injection hpd2 with harr
    subst harr
    subst hok
    exact ⟨hdx, hdy, hdz, hnc, rfl, rfl⟩

/-- C5 witness: one 3-component point-data array of dimensions (32,32,1)
yields dims (32,32,1), three chemicals, the input path and a clear modified
flag. -/
theorem C5_witness :
    (⟨.grayScottImage, 32, 32, 1, 3, "/p.vti", false, false⟩ : RDModel).dimX
        = (⟨some [⟨10⟩], 32, 32, 1, 3⟩ : ImageContent).dimX
    ∧ (⟨.grayScottImage, 32, 32, 1, 3, "/p.vti", false, false⟩ : RDModel).dimY
        = (⟨some [⟨10⟩], 32, 32, 1, 3⟩ : ImageContent).dimY
    ∧ (⟨.grayScottImage, 32, 32, 1, 3, "/p.vti", false, false⟩ : RDModel).dimZ
        = (⟨some [⟨10⟩], 32, 32, 1, 3⟩ : ImageContent).dimZ
    ∧ (⟨.grayScottImage, 32, 32, 1, 3, "/p.vti", false, false⟩ : RDModel).numberOfChemicals
        = (⟨some [⟨10⟩], 32, 32, 1, 3⟩ : ImageContent).numScalarComponents
            * (([⟨10⟩] : List DataArray).length : Int)
    ∧ (⟨.grayScottImage, 32, 32, 1, 3, "/p.vti", false, false⟩ : RDModel).filename
        = (⟨"/p.vti", 6, some ⟨some [⟨10⟩], 32, 32, 1, 3⟩, none,
            ⟨"inbuilt", "Gray-Scott", none, false⟩⟩ : InputFile).filename
    ∧ (⟨.grayScottImage, 32, 32, 1, 3, "/p.vti", false, false⟩ : RDModel).modified = false :=
  C5_grid_model_fields ⟨"/p.vti", 6, some ⟨some [⟨10⟩], 32, 32, 1, 3⟩, none,
      ⟨"inbuilt", "Gray-Scott", none, false⟩⟩ false 0 0 ⟨"C", [], []⟩
    ⟨some [⟨10⟩], 32, 32, 1, 3⟩ [⟨10⟩] ⟨.grayScottImage, 32, 32, 1, 3, "/p.vti", false, false⟩
    rfl rfl rfl (by decide)

/-- C6: a NULL point-data (image) or cell-data (mesh) section and an empty
data section each abort construction, with two distinct error kinds carrying
distinct messages, so the caller can tell "no data section" from "section
present but no arrays"; no model is returned in either case. -/
theorem C6_missing_data_errors (f : InputFile) (b : Bool) (p d : Int) (st : ProcState) :
    (f.outputType = VTK_IMAGE_DATA → imagePointData f = some none →
        (CreateFromFile f b p d st).1 = .error .imageHasNoPointData)
    ∧ (f.outputType = VTK_IMAGE_DATA → imagePointData f = some (some []) →
        (CreateFromFile f b p d st).1 = .error .noArraysInImagePointData)
    ∧ (f.outputType = VTK_UNSTRUCTURED_GRID → gridCellData f = some none →
        (CreateFromFile f b p d st).1 = .error .gridHasNoCellData)
    ∧ (f.outputType = VTK_UNSTRUCTURED_GRID → gridCellData f = some (some []) →
        (CreateFromFile f b p d st).1 = .error .noArraysInGridCellData)
    ∧ FactoryError.imageHasNoPointData ≠ FactoryError.noArraysInImagePointData
    ∧ FactoryError.message .imageHasNoPointData ≠ FactoryError.message .noArraysInImagePointData
    ∧ FactoryError.gridHasNoCellData ≠ FactoryError.noArraysInGridCellData
    ∧ FactoryError.message .gridHasNoCellData ≠ FactoryError.message .noArraysInGridCellData := by
  refine ⟨?_, ?_, ?_, ?_, by decide, by decide, by decide, by decide⟩
  · intro h1 hpd
    unfold imagePointData at hpd
    obtain ⟨c, himg, hcpd⟩ : ∃ c, f.image = some c ∧ c.pointData = none := by
      cases himg : f.image with
      | none => rw [himg] at hpd; simp at hpd
      | some c =>
        rw [himg] at hpd
        simp at hpd
        exact ⟨c, rfl, hpd⟩
    have hsub := imageSub_noPointData f b p d st.renderSettings c himg hcpd
    rw [createFromFile_image_error f b p d st _ h1 hsub]
  · intro h1 hpd
    unfold imagePointData at hpd
    obtain ⟨c, himg, hcpd⟩ : ∃ c, f.image = some c ∧ c.pointData = some [] := by
      cases himg : f.image with
      | none => rw [himg] at hpd; simp at hpd
      | some c =>
        rw [himg] at hpd
        simp at hpd
        exact ⟨c, rfl, hpd⟩
    have hsub := imageSub_noArrays f b p d st.renderSettings c himg hcpd
    rw [createFromFile_image_error f b p d st _ h1 hsub]
  · intro h2 hcd
    unfold gridCellData at hcd
    obtain ⟨g, hg, hgcd⟩ : ∃ g, f.ugrid = some g ∧ g.cellData = none := by
      cases hg : f.ugrid with
      | none => rw [hg] at hcd; simp at hcd
      | some g =>
        rw [hg] at hcd
        simp at hcd
        exact ⟨g, rfl, hcd⟩
    have hsub := meshSub_noCellData f b p d st.renderSettings g hg hgcd
    rw [createFromFile_mesh_error f b p d st _ h2 hsub]
  · intro h2 hcd
    unfold gridCellData at hcd
    obtain ⟨g, hg, hgcd⟩ : ∃ g, f.ugrid = some g ∧ g.cellData = some [] := by
      cases hg : f.ugrid with
      | none => rw [hg] at hcd; simp at hcd
      | some g =>
        rw [hg] at hcd
        simp at hcd
        exact ⟨g, rfl, hcd⟩
    have hsub := meshSub_noArrays f b p d st.renderSettings g hg hgcd
    rw [createFromFile_mesh_error f b p d st _ h2 hsub]

/-- C6 witness: a concrete image file with a NULL point-data section fails
with the missing-section error. -/
theorem C6_witness :
    (CreateFromFile ⟨"/m.vti", 6, some ⟨none, 1, 1, 1, 1⟩, none,
        ⟨"inbuilt", "Gray-Scott", none, false⟩⟩ true 0 0 ⟨"C", [], []⟩).1
      = .error .imageHasNoPointData :=
  (C6_missing_data_errors ⟨"/m.vti", 6, some ⟨none, 1, 1, 1, 1⟩, none,
      ⟨"inbuilt", "Gray-Scott", none, false⟩⟩ true 0 0 ⟨"C", [], []⟩).1 rfl rfl
/-- C7: on success, a present `render_settings` element changes exactly the
names it mentions — the final store is the input store overwritten with the
overlay, and every unmentioned name keeps its prior value — while an absent
element leaves the store untouched. -/
theorem C7_render_settings_overlay (f : InputFile) (b : Bool) (p d : Int) (st : ProcState)
    (hok : resultOk (CreateFromFile f b p d st).1 = true) :
    (∀ ov, f.rd.renderSettings = some ov →
        (CreateFromFile f b p d st).2.renderSettings
          = st.renderSettings.overwriteFromXML ov
        ∧ ∀ n, n ∉ ov.map Prod.fst →
            ((CreateFromFile f b p d st).2.renderSettings).valueOf n
              = (st.renderSettings).valueOf n)
    ∧ (f.rd.renderSettings = none →
        (CreateFromFile f b p d st).2.renderSettings = st.renderSettings) := by
  by_cases h1 : f.outputType = VTK_IMAGE_DATA
  · cases hres : (CreateFromImageDataFile f b p d st.renderSettings).result with
    | error e =>
      rw [createFromFile_image_error f b p d st e h1 hres] at hok
      simp [resultOk] at hok
    | ok m =>
      have hrs := imageSub_ok_renderSettings f b p d st.renderSettings m hres
      rw [createFromFile_image_ok f b p d st m h1 hres]
      dsimp only
      constructor
      · intro ov hov
        rw [hrs, hov]
        exact ⟨rfl, fun n hn =>
          Properties.valueOf_overwriteFromXML_of_not_mem ov st.renderSettings n hn⟩
      · intro hov
        rw [hrs, hov]
  · by_cases h2 : f.outputType = VTK_UNSTRUCTURED_GRID
    · cases hres : (CreateFromUnstructuredGridFile f b p d st.renderSettings).result with
      | error e =>
        rw [createFromFile_mesh_error f b p d st e h2 hres] at hok
        simp [resultOk] at hok
      | ok m =>
        have hrs := meshSub_ok_renderSettings f b p d st.renderSettings m hres
        rw [createFromFile_mesh_ok f b p d st m h2 hres]
        dsimp only
        constructor
        · intro ov hov
          rw [hrs, hov]
          exact ⟨rfl, fun n hn =>
            Properties.valueOf_overwriteFromXML_of_not_mem ov st.renderSettings n hn⟩
        · intro hov
          rw [hrs, hov]
    · rw [createFromFile_other f b p d st h1 h2] at hok
      simp [resultOk] at hok

/-- C7 witness: with prior store `color=red, keep=1` and overlay
`color=blue`, the final store is the overwritten one and the unmentioned
name `keep` keeps its value. -/
theorem C7_witness :
    (CreateFromFile ⟨"/r.vti", 6, some ⟨some [⟨10⟩], 2, 2, 1, 1⟩, none,
        ⟨"inbuilt", "Gray-Scott", some [("color", "blue")], false⟩⟩ false 0 0
        ⟨"C", [("color", "red"), ("keep", "1")], []⟩).2.renderSettings
      = Properties.overwriteFromXML [("color", "red"), ("keep", "1")] [("color", "blue")]
    ∧ ((CreateFromFile ⟨"/r.vti", 6, some ⟨some [⟨10⟩], 2, 2, 1, 1⟩, none,
        ⟨"inbuilt", "Gray-Scott", some [("color", "blue")], false⟩⟩ false 0 0
        ⟨"C", [("color", "red"), ("keep", "1")], []⟩).2.renderSettings).valueOf "keep"
      = Properties.valueOf [("color", "red"), ("keep", "1")] "keep" := by
  have h := (C7_render_settings_overlay ⟨"/r.vti", 6, some ⟨some [⟨10⟩], 2, 2, 1, 1⟩, none,
      ⟨"inbuilt", "Gray-Scott", some [("color", "blue")], false⟩⟩ false 0 0
      ⟨"C", [("color", "red"), ("keep", "1")], []⟩ (by decide)).1 [("color", "blue")] rfl
  exact ⟨h.1, h.2 "keep" (by decide)⟩

/-- Outside the `inbuilt` branch the image sub-constructor never consults the
`name` tag: changing it changes nothing. -/
lemma imageSub_name_irrelevant (f : InputFile) (b : Bool) (p d : Int) (rs : Properties)
    (n2 : String) (ht : f.rd.type ≠ "inbuilt") :
    CreateFromImageDataFile { f with rd := { f.rd with name := n2 } } b p d rs
      = CreateFromImageDataFile f b p d rs := by
  obtain ⟨fn, ot, img, ug, rd⟩ := f
  obtain ⟨ty, nm, ov, gen⟩ := rd
  cases img with
  | none => rfl
  | some image =>
    obtain ⟨pd, dx, dy, dz, nsc⟩ := image
    cases pd with
    | none => rfl
    | some arrs =>
      cases arrs with
      | nil => rfl
      | cons a0 rest =>
        unfold CreateFromImageDataFile
        dsimp only
        rw [show selectImageSystem ⟨ty, n2, ov, gen⟩ b p d a0.dataType
            = selectImageSystem ⟨ty, nm, ov, gen⟩ b p d a0.dataType from by
          simp [selectImageSystem, ht]]

/-- Outside the `inbuilt` branch the mesh sub-constructor never consults the
`name` tag: changing it changes nothing. -/
lemma meshSub_name_irrelevant (f : InputFile) (b : Bool) (p d : Int) (rs : Properties)
    (n2 : String) (ht : f.rd.type ≠ "inbuilt") :
    CreateFromUnstructuredGridFile { f with rd := { f.rd with name := n2 } } b p d rs
      = CreateFromUnstructuredGridFile f b p d rs := by
  obtain ⟨fn, ot, img, ug, rd⟩ := f
  obtain ⟨ty, nm, ov, gen⟩ := rd
  cases ug with
  | none => rfl
  | some grid =>
    obtain ⟨cd⟩ := grid
    cases cd with
    | none => rfl
    | some arrs =>
      cases arrs with
      | nil => rfl
      | cons a0 rest =>
        unfold CreateFromUnstructuredGridFile
        dsimp only
        rw [show selectMeshSystem ⟨ty, n2, ov, gen⟩ b p d a0.dataType
            = selectMeshSystem ⟨ty, nm, ov, gen⟩ b p d a0.dataType from by
          simp [selectMeshSystem, ht]]

/-- C9: for `type = "formula"` or `"kernel"` the `name` tag has no effect:
two files identical except for the name produce identical outcomes
(result, store, locale and trace) on every path. -/
theorem C9_name_tag_noninterference (f : InputFile) (b : Bool) (p d : Int)
    (st : ProcState) (n2 : String)
    (ht : f.rd.type = "formula" ∨ f.rd.type = "kernel") :
    CreateFromFile { f with rd := { f.rd with name := n2 } } b p d st
      = CreateFromFile f b p d st := by
  have htni : f.rd.type ≠ "inbuilt" := by
    cases ht with
    | inl h => rw [h]; decide
    | inr h => rw [h]; decide
  have hsubI := imageSub_name_irrelevant f b p d st.renderSettings n2 htni
  have hsubM := meshSub_name_irrelevant f b p d st.renderSettings n2 htni
  obtain ⟨fn, ot, img, ug, rd⟩ := f
  obtain ⟨ty, nm, ov, gen⟩ := rd
  dsimp only at hsubI hsubM ⊢
  unfold CreateFromFile setlocaleNumeric
  dsimp only
  rw [hsubI, hsubM]

/-- C9 witness: two concrete formula files differing only in the name tag
produce identical outcomes. -/
theorem C9_witness :
    CreateFromFile ⟨"/f.vti", 6, some ⟨some [⟨10⟩], 2, 2, 1, 1⟩, none,
        ⟨"formula", "X", none, false⟩⟩ true 1 2 ⟨"C", [], []⟩
      = CreateFromFile ⟨"/f.vti", 6, some ⟨some [⟨10⟩], 2, 2, 1, 1⟩, none,
        ⟨"formula", "Y", none, false⟩⟩ true 1 2 ⟨"C", [], []⟩ :=
  C9_name_tag_noninterference ⟨"/f.vti", 6, some ⟨some [⟨10⟩], 2, 2, 1, 1⟩, none,
      ⟨"formula", "Y", none, false⟩⟩ true 1 2 ⟨"C", [], []⟩ "X" (Or.inl rfl)

/-- C10: whenever `CreateFromFile` fails with one of the pre-overlay error
kinds (unreadable file, missing data, unsupported rule type, unknown inbuilt
name, compute unavailable), the caller's render-settings store is unchanged:
in both sub-constructors all those checks precede the overlay. -/
theorem C10_error_frame (f : InputFile) (b : Bool) (p d : Int) (st : ProcState)
    (e : FactoryError) (he : (CreateFromFile f b p d st).1 = .error e)
    (_hk : e.isPreOverlayCheck = true) :
    (CreateFromFile f b p d st).2.renderSettings = st.renderSettings := by
  by_cases h1 : f.outputType = VTK_IMAGE_DATA
  · cases hres : (CreateFromImageDataFile f b p d st.renderSettings).result with
    | error e2 =>
      rw [createFromFile_image_error f b p d st e2 h1 hres]
      exact imageSub_error_renderSettings f b p d st.renderSettings e2 hres
    | ok m =>
      rw [createFromFile_image_ok f b p d st m h1 hres] at he
      simp at he
  · by_cases h2 : f.outputType = VTK_UNSTRUCTURED_GRID
    · cases hres : (CreateFromUnstructuredGridFile f b p d st.renderSettings).result with
      | error e2 =>
        rw [createFromFile_mesh_error f b p d st e2 h2 hres]
        exact meshSub_error_renderSettings f b p d st.renderSettings e2 hres
      | ok m =>
        rw [createFromFile_mesh_ok f b p d st m h2 hres] at he
        simp at he
    · rw [createFromFile_other f b p d st h1 h2]

/-- C10 witness: a failing load (empty point-data section) leaves a concrete
store unchanged. -/
theorem C10_witness :
    (CreateFromFile ⟨"/e.vti", 6, some ⟨some [], 1, 1, 1, 1⟩, none,
        ⟨"inbuilt", "Gray-Scott", some [("color", "blue")], false⟩⟩ true 0 0
        ⟨"C", [("a", "1")], []⟩).2.renderSettings = [("a", "1")] :=
  C10_error_frame ⟨"/e.vti", 6, some ⟨some [], 1, 1, 1, 1⟩, none,
      ⟨"inbuilt", "Gray-Scott", some [("color", "blue")], false⟩⟩ true 0 0
    ⟨"C", [("a", "1")], []⟩ .noArraysInImagePointData (by decide) (by decide)
/-- C8: on every successful construction, initial-pattern generation happens
exactly when the descriptor requests it, and when it happens the trace splits
as `pre ++ generate :: suf` where no spatial-sizing call is in `suf` and the
path's sizing calls (dimensions, chemical count and image copy-in on the
image path; mesh copy-in on the mesh path) are all in `pre`: generation runs
strictly after spatial sizing, never before. -/
theorem C8_generation_after_sizing (f : InputFile) (b : Bool) (p d : Int) (st : ProcState)
    (h0 : st.trace = [])
    (hok : resultOk (CreateFromFile f b p d st).1 = true) :
    (Event.generateInitialPattern ∈ (CreateFromFile f b p d st).2.trace
        ↔ f.rd.generateInitialPatternWhenLoading = true)
    ∧ (f.rd.generateInitialPatternWhenLoading = true →
        ∃ pre suf, (CreateFromFile f b p d st).2.trace
            = pre ++ Event.generateInitialPattern :: suf
          ∧ (∀ e ∈ suf, e.isSpatialSizing = false)
          ∧ (f.outputType = VTK_IMAGE_DATA →
              (∃ x y z, Event.setDimensions x y z ∈ pre)
              ∧ (∃ n, Event.setNumberOfChemicals n ∈ pre)
              ∧ Event.copyFromImage ∈ pre)
          ∧ (f.outputType = VTK_UNSTRUCTURED_GRID → Event.copyFromMesh ∈ pre)) := by
  by_cases h1 : f.outputType = VTK_IMAGE_DATA
  · cases hres : (CreateFromImageDataFile f b p d st.renderSettings).result with
    | error e =>
      rw [createFromFile_image_error f b p d st e h1 hres] at hok
      simp [resultOk] at hok
    | ok m =>
      obtain ⟨pre0, htr, hnogen, hdims, hnc, hcopy⟩ :=
        imageSub_ok_trace f b p d st.renderSettings m hres
      rw [createFromFile_image_ok f b p d st m h1 hres]
      dsimp only
      rw [h0, htr]
      constructor
      · constructor
        · intro hmem
          by_contra hgen
          rw [Bool.not_eq_true] at hgen
          rw [hgen] at hmem
          simp [hnogen] at hmem
        · intro hgen
          rw [hgen]
          simp
      · intro hgen
        rw [hgen]
        refine ⟨Event.callImageSub :: pre0,
          [Event.setFilename f.filename, Event.setModified false], ?_, ?_, ?_, ?_⟩
        · simp
        · intro e he
          rcases List.mem_cons.mp he with rfl | he2
          · rfl
          · rcases List.mem_cons.mp he2 with rfl | he3
            · rfl
            · cases he3
        · intro _
          obtain ⟨x, y, z, hx⟩ := hdims
          obtain ⟨n, hn⟩ := hnc
          exact ⟨⟨x, y, z, List.mem_cons_of_mem _ hx⟩, ⟨n, List.mem_cons_of_mem _ hn⟩,
            List.mem_cons_of_mem _ hcopy⟩
        · intro h2
          rw [h1] at h2
          exact absurd h2 (by decide)
  · by_cases h2 : f.outputType = VTK_UNSTRUCTURED_GRID
    · cases hres : (CreateFromUnstructuredGridFile f b p d st.renderSettings).result with
      | error e =>
        rw [createFromFile_mesh_error f b p d st e h2 hres] at hok
        simp [resultOk] at hok
      | ok m =>
        obtain ⟨pre0, htr, hnogen, hcopy⟩ :=
          meshSub_ok_trace f b p d st.renderSettings m hres
        rw [createFromFile_mesh_ok f b p d st m h2 hres]
        dsimp only
        rw [h0, htr]
        constructor
        · constructor
          · intro hmem
            by_contra hgen
            rw [Bool.not_eq_true] at hgen
            rw [hgen] at hmem
            simp [hnogen] at hmem
          · intro hgen
            rw [hgen]
            simp
        · intro hgen
          rw [hgen]
          refine ⟨Event.callMeshSub :: pre0,
            [Event.setFilename f.filename, Event.setModified false], ?_, ?_, ?_, ?_⟩
          · simp
          · intro e he
            rcases List.mem_cons.mp he with rfl | he2
            · rfl
            · rcases List.mem_cons.mp he2 with rfl | he3
              · rfl
              · cases he3
          · intro himg
            exact absurd himg h1
          · intro _
            exact List.mem_cons_of_mem _ hcopy
    · rw [createFromFile_other f b p d st h1 h2] at hok
      simp [resultOk] at hok

/-- C8 witness: a concrete image file requesting initial-pattern generation
has the generation call in its construction trace. -/
theorem C8_witness :
    Event.generateInitialPattern ∈ (CreateFromFile ⟨"/gen.vti", 6,
        some ⟨some [⟨10⟩], 2, 2, 1, 1⟩, none,
        ⟨"inbuilt", "Gray-Scott", none, true⟩⟩ false 0 0 ⟨"C", [], []⟩).2.trace :=
  (C8_generation_after_sizing ⟨"/gen.vti", 6, some ⟨some [⟨10⟩], 2, 2, 1, 1⟩, none,
      ⟨"inbuilt", "Gray-Scott", none, true⟩⟩ false 0 0 ⟨"C", [], []⟩ rfl
    (by decide)).1.mpr rfl
end Ready
